import Mathlib

/-!
Shallow embedding of the conversational SQL analytics agent
(`src/agent.py` and `src/database.py`).

External effects are modelled explicitly:
* the LLM is an oracle `Nat → Except String String` giving the outcome of
  the n-th API call in the session (`.error e` models a raised exception
  whose `str(e)` is `e`, `.ok t` models a normal response with text `t`);
* the warehouse is an oracle `Nat → DBBehavior` giving the outcome of the
  n-th `execute_query` call;
* `st.session_state.conversation_history` and the two call counters live
  in an explicit `AgentState` threaded through the functions.
-/

namespace Analytics

/-- A conversation message: a role (`"user"` or `"assistant"`) and text. -/
structure Message where
  role : String
  content : String
deriving DecidableEq, Repr

/-- A tabular query result: ordered column names and rows of values.
Mirrors the pandas DataFrame shape the code inspects (`df.columns`,
`len(df)`). -/
structure QueryResult where
  cols : List String
  rows : List (List String)
deriving DecidableEq, Repr

/-- One warehouse interaction, as observed by
`DatabaseManager.execute_query`: either some exception was raised during
connect / execute / fetch (`raised e`), or the statement ran and produced
a cursor description (`none` when `cursor.description` is `None`) and a
list of fetched rows. -/
inductive DBBehavior where
  | raised (e : String)
  | returned (descr : Option (List String)) (rows : List (List String))
deriving DecidableEq, Repr

/-- Embedding of `DatabaseManager.execute_query` (src/database.py lines 20-63).
The `try` block computes `columns` from the cursor description (empty
when the description is `None`), fetches the rows and builds a
DataFrame; any exception — including the `pd.DataFrame` constructor
rejecting rows whose width disagrees with `columns` — is caught by the
`except` clause, which returns the empty DataFrame `pd.DataFrame()`
(zero columns, zero rows). The Lean function is total: no failure
escapes to the caller. -/
def execute_query (b : DBBehavior) : QueryResult :=
  match b with
  | .raised _ => ⟨[], []⟩
  | .returned descr rows =>
      let columns := descr.getD []
      if rows.all (fun r => r.length = columns.length) then
        ⟨columns, rows⟩
      else
        ⟨[], []⟩

/-- The two session oracles: LLM call outcomes and warehouse call
outcomes, indexed by how many calls of that kind happened before. -/
structure Env where
  llm : Nat → Except String String
  db : Nat → DBBehavior

/-- The mutable session data of `ConversationManager`: the conversation
history in `st.session_state`, plus counters of LLM and warehouse calls
made so far (used to index the oracles). -/
structure AgentState where
  history : List Message
  nLLM : Nat
  nDB : Nat
deriving Repr

/-- Embedding of `ConversationManager.get_conversation_history` (src/agent.py 30-32). -/
def get_conversation_history (s : AgentState) : List Message :=
  s.history

/-- Embedding of `ConversationManager.add_to_history` (src/agent.py 34-39). -/
def add_to_history (s : AgentState) (role content : String) : AgentState :=
  { s with history := s.history ++ [⟨role, content⟩] }

/-- Embedding of `ConversationManager.clear_history` (src/agent.py 41-43). -/
def clear_history (s : AgentState) : AgentState :=
  { s with history := [] }

/-- Does `pat` occur at the very start of `hay`? -/
def leadsWith : List Char → List Char → Bool
  | [], _ => true
  | _ :: _, [] => false
  | a :: as, b :: bs => a == b && leadsWith as bs

/-- Does `pat` occur contiguously anywhere inside `hay`? -/
def occursIn (pat : List Char) : List Char → Bool
  | [] => pat.isEmpty
  | h :: t => leadsWith pat (h :: t) || occursIn pat t

/-- Python `pat in s`: substring containment on the underlying
character lists. -/
def strContains (s pat : String) : Bool :=
  occursIn pat.toList s.toList

/-- Python `s.upper()`: character-wise upper-casing. -/
def strUpper (s : String) : String :=
  ⟨s.toList.map Char.toUpper⟩

/-- Core of Python `hay.replace(pat, rep)`: replace non-overlapping
occurrences left to right.  The fuel argument (instantiated with the
length of `hay`) only makes the recursion structural; each step consumes
at least one character, so the fuel never runs out in `strReplace`. -/
def replaceAux (pat rep : List Char) : Nat → List Char → List Char
  | _, [] => []
  | 0, hay => hay
  | n + 1, h :: t =>
      if leadsWith pat (h :: t) && !pat.isEmpty then
        rep ++ replaceAux pat rep n ((h :: t).drop pat.length)
      else
        h :: replaceAux pat rep n t

/-- Python `s.replace(pat, rep)`. -/
def strReplace (s pat rep : String) : String :=
  ⟨replaceAux pat.toList rep.toList s.toList.length s.toList⟩

/-- The whitespace characters removed by Python `str.strip()`. -/
def isSpaceChar (c : Char) : Bool :=
  c == ' ' || c == '\t' || c == '\n' || c == '\r' ||
    c == Char.ofNat 11 || c == Char.ofNat 12

/-- Drop leading whitespace characters. -/
def dropLeading : List Char → List Char
  | [] => []
  | h :: t => if isSpaceChar h then dropLeading t else h :: t

/-- Python `s.strip()`: drop whitespace from both ends. -/
def strStrip (s : String) : String :=
  ⟨((dropLeading s.toList).reverse |> dropLeading).reverse⟩

/-- The markdown stripping done on a response classified as SQL:
`ai_response.replace("```sql", "").replace("```", "").strip()`. -/
def stripMarkdown (t : String) : String :=
  strStrip (strReplace (strReplace t "```sql" "") "```" "")

/-- The check `"SELECT" in ai_response.upper()` (src/agent.py 104 and 251). -/
def looksLikeSQL (t : String) : Bool :=
  strContains (strUpper t) "SELECT"

/-- Embedding of `ConversationManager.generate_sql` (src/agent.py 69-115).
Makes one LLM call.  On a normal response it first appends the user
question and the raw response to the history, then classifies: if the
upper-cased response contains `"SELECT"` it returns the
markdown-stripped text as SQL, otherwise `none`.  If the API call
raises, nothing is appended and it returns `none` with the message
`"Error generating SQL: " ++ str(e)`. -/
def generate_sql (env : Env) (s : AgentState) (user_question : String) :
    (Option String × String) × AgentState :=
  match env.llm s.nLLM with
  | .error e =>
      let error_msg := "Error generating SQL: " ++ e
      ((none, error_msg), { s with nLLM := s.nLLM + 1 })
  | .ok ai_response =>
      let s1 := add_to_history { s with nLLM := s.nLLM + 1 } "user" user_question
      let s2 := add_to_history s1 "assistant" ai_response
      if looksLikeSQL ai_response then
        ((some (stripMarkdown ai_response), ai_response), s2)
      else
        ((none, ai_response), s2)

/-- Embedding of `ConversationManager.fix_failed_sql` (src/agent.py 209-259).
One independent LLM call with a repair prompt; the conversation history
is not touched.  The response is classified exactly as in
`generate_sql`; a raised exception yields `(none, str(e))`. -/
def fix_failed_sql (env : Env) (s : AgentState)
    (_failed_sql _original_question : String) :
    (Option String × String) × AgentState :=
  match env.llm s.nLLM with
  | .error e => ((none, e), { s with nLLM := s.nLLM + 1 })
  | .ok ai_response =>
      let s1 := { s with nLLM := s.nLLM + 1 }
      if looksLikeSQL ai_response then
        ((some (stripMarkdown ai_response), ai_response), s1)
      else
        ((none, ai_response), s1)

/-- The dict returned by `ask_question` (src/agent.py docstring 127). -/
structure Outcome where
  success : Bool
  sql : Option String
  data : Option QueryResult
  message : String
  retry_attempted : Bool
deriving DecidableEq, Repr

/-- Embedding of `ConversationManager.ask_question` (src/agent.py 117-207).
Generates SQL, executes it, and on a zero-column result performs at most
one repair cycle (guarded by `max_retries > 0`; Python's `int` is
modelled by `Int`).  Mirrors every return statement of the source,
including the final fallback whose `retry_attempted` is the boolean
`max_retries > 0`. -/
def ask_question (env : Env) (s : AgentState) (user_question : String)
    (max_retries : Int := 1) : Outcome × AgentState :=
  let g := generate_sql env s user_question
  let s1 := g.2
  match g.1.1 with
  | none =>
      ({ success := false, sql := none, data := none,
         message := g.1.2, retry_attempted := false }, s1)
  | some sql_query =>
      let df := execute_query (env.db s1.nDB)
      let s2 := { s1 with nDB := s1.nDB + 1 }
      if df.cols.length > 0 then
        if df.rows.length > 0 then
          ({ success := true, sql := some sql_query, data := some df,
             message := "Found " ++ toString df.rows.length ++ " results",
             retry_attempted := false }, s2)
        else
          ({ success := true, sql := some sql_query, data := some df,
             message := "Query executed successfully but returned no results",
             retry_attempted := false }, s2)
      else
        if max_retries > 0 then
          let f := fix_failed_sql env s2 sql_query user_question
          let s3 := f.2
          match f.1.1 with
          | some fixed_sql =>
              let df2 := execute_query (env.db s3.nDB)
              let s4 := { s3 with nDB := s3.nDB + 1 }
              if df2.cols.length > 0 then
                if df2.rows.length > 0 then
                  ({ success := true, sql := some fixed_sql, data := some df2,
                     message := "Found " ++ toString df2.rows.length ++
                       " results (after automatic fix)",
                     retry_attempted := true }, s4)
                else
                  ({ success := true, sql := some fixed_sql, data := some df2,
                     message := "Fixed query executed but returned no results",
                     retry_attempted := true }, s4)
              else
                ({ success := false, sql := some sql_query, data := none,
                   message := "Query failed and could not be automatically fixed",
                   retry_attempted := decide (max_retries > 0) }, s4)
          | none =>
              ({ success := false, sql := some sql_query, data := none,
                 message := "Query failed and could not be automatically fixed",
                 retry_attempted := decide (max_retries > 0) }, s3)
        else
          ({ success := false, sql := some sql_query, data := none,
             message := "Query failed and could not be automatically fixed",
             retry_attempted := decide (max_retries > 0) }, s2)

/-! ### Concrete session fixtures used by the closed witness theorems -/

/-- The empty session: no history, no calls made yet. -/
def emptyState : AgentState := ⟨[], 0, 0⟩

/-- A warehouse call that raises (e.g. a syntax error). -/
def failDB : DBBehavior := DBBehavior.raised "syntax error"

/-- A one-column, one-row successful warehouse result. -/
def okDB : DBBehavior := DBBehavior.returned (some ["c"]) [["1"]]

/-- A one-column, zero-row successful warehouse result. -/
def emptyOkDB : DBBehavior := DBBehavior.returned (some ["c"]) []

/-- The LLM always answers with SQL and the warehouse succeeds. -/
def envHappy : Env := ⟨fun _ => Except.ok "SELECT 1", fun _ => okDB⟩

/-- The LLM answers with prose only. -/
def envExplain : Env := ⟨fun _ => Except.ok "I cannot answer that", fun _ => okDB⟩

/-- The LLM call raises an exception. -/
def envRaise : Env := ⟨fun _ => Except.error "boom", fun _ => okDB⟩

/-- The first LLM call yields SQL, the warehouse always fails, and the
repair call yields a prose explanation. -/
def envRepairExplain : Env :=
  ⟨fun n => if n = 0 then Except.ok "SELECT 1"
            else Except.ok "cannot determine date column",
   fun _ => failDB⟩

/-- Every LLM call yields SQL and the warehouse always fails: the
repaired SQL fails again. -/
def envRepairStillFails : Env :=
  ⟨fun _ => Except.ok "SELECT 1", fun _ => failDB⟩

/-! ### Helper lemmas -/

/-- Equation for `generate_sql` when the LLM call raises. -/
theorem generate_sql_raised (env : Env) (s : AgentState) (q e : String)
    (h : env.llm s.nLLM = Except.error e) :
    generate_sql env s q =
      ((none, "Error generating SQL: " ++ e), { s with nLLM := s.nLLM + 1 }) := by
  unfold generate_sql
  rw [h]

/-- Equation for `generate_sql` when the LLM call returns text `t`. -/
theorem generate_sql_ok (env : Env) (s : AgentState) (q t : String)
    (h : env.llm s.nLLM = Except.ok t) :
    generate_sql env s q =
      ((if looksLikeSQL t then some (stripMarkdown t) else none, t),
       { s with nLLM := s.nLLM + 1,
                history := s.history ++ [⟨"user", q⟩, ⟨"assistant", t⟩] }) := by
  unfold generate_sql add_to_history
  rw [h]
  by_cases hb : looksLikeSQL t <;> simp [hb]

/-- The function `generate_sql` always advances the LLM counter by exactly one. -/
theorem generate_sql_nLLM (env : Env) (s : AgentState) (q : String) :
    (generate_sql env s q).2.nLLM = s.nLLM + 1 := by
  unfold generate_sql add_to_history
  cases env.llm s.nLLM <;> first
    | rfl
    | (simp only []; split <;> rfl)

/-- The function `generate_sql` never touches the warehouse counter. -/
theorem generate_sql_nDB (env : Env) (s : AgentState) (q : String) :
    (generate_sql env s q).2.nDB = s.nDB := by
  unfold generate_sql add_to_history
  cases env.llm s.nLLM <;> first
    | rfl
    | (simp only []; split <;> rfl)

/-- The function `fix_failed_sql` always advances the LLM counter by exactly one. -/
theorem fix_failed_sql_nLLM (env : Env) (s : AgentState) (a b : String) :
    (fix_failed_sql env s a b).2.nLLM = s.nLLM + 1 := by
  unfold fix_failed_sql
  cases env.llm s.nLLM <;> first
    | rfl
    | (simp only []; split <;> rfl)

/-- The function `fix_failed_sql` never touches the warehouse counter. -/
theorem fix_failed_sql_nDB (env : Env) (s : AgentState) (a b : String) :
    (fix_failed_sql env s a b).2.nDB = s.nDB := by
  unfold fix_failed_sql
  cases env.llm s.nLLM <;> first
    | rfl
    | (simp only []; split <;> rfl)

/-- The function `fix_failed_sql` leaves the conversation history untouched. -/
theorem fix_failed_sql_history (env : Env) (s : AgentState) (a b : String) :
    (fix_failed_sql env s a b).2.history = s.history := by
  unfold fix_failed_sql
  cases env.llm s.nLLM <;> first
    | rfl
    | (simp only []; split <;> rfl)

/-! ### Claims -/

/-- C3: for every question whose LLM response does not contain the
substring "SELECT" case-insensitively, `ask_question` returns
`success=false`, `sql=None`, message equal to the raw response text and
`retry_attempted=false`, and no SQL is executed (the warehouse call
counter is unchanged). -/
theorem ask_question_non_sql (env : Env) (s : AgentState) (q : String)
    (r : Int) (t : String)
    (hok : env.llm s.nLLM = Except.ok t)
    (hnot : looksLikeSQL t = false) :
    (ask_question env s q r).1 =
      { success := false, sql := none, data := none, message := t,
        retry_attempted := false }
    ∧ (ask_question env s q r).2.nDB = s.nDB := by
  unfold ask_question
  rw [generate_sql_ok env s q t hok, hnot]
  simp

/-- Closed instance of `ask_question_non_sql` at a concrete environment. -/
theorem ask_question_non_sql_witness :
    (ask_question envExplain emptyState "q" 1).1 =
      { success := false, sql := none, data := none,
        message := "I cannot answer that", retry_attempted := false }
    ∧ (ask_question envExplain emptyState "q" 1).2.nDB = emptyState.nDB :=
  ask_question_non_sql envExplain emptyState "q" 1 "I cannot answer that"
    rfl (by decide)

/-- C2: for every question and every retry budget, one `ask_question`
call makes at most two LLM calls (one drafting, at most one repair) and
at most two warehouse executions (at most one correction cycle), even
when `max_retries` exceeds 1. -/
theorem ask_question_call_bound (env : Env) (s : AgentState) (q : String)
    (r : Int) :
    (ask_question env s q r).2.nLLM ≤ s.nLLM + 2
    ∧ (ask_question env s q r).2.nDB ≤ s.nDB + 2 := by
  refine ⟨?_, ?_⟩ <;>
  · simp only [ask_question]
    repeat' split
    all_goals
      simp [generate_sql_nLLM, generate_sql_nDB, fix_failed_sql_nLLM,
        fix_failed_sql_nDB]

/-- C5: for every first-attempt execution whose result has at least one
column, `ask_question` returns `success=true` and
`retry_attempted=false`; with at least one row the message is
`"Found N results"` for the row count `N`, and with zero rows the
message says no results were returned. -/
theorem ask_question_first_attempt_ok (env : Env) (s : AgentState)
    (q : String) (r : Int) (t : String)
    (hok : env.llm s.nLLM = Except.ok t)
    (hsql : looksLikeSQL t = true)
    (hcols : 0 < (execute_query (env.db s.nDB)).cols.length) :
    (ask_question env s q r).1.success = true
    ∧ (ask_question env s q r).1.retry_attempted = false
    ∧ (ask_question env s q r).1.sql = some (stripMarkdown t)
    ∧ (0 < (execute_query (env.db s.nDB)).rows.length →
        (ask_question env s q r).1.message =
          "Found " ++ toString (execute_query (env.db s.nDB)).rows.length
            ++ " results")
    ∧ ((execute_query (env.db s.nDB)).rows.length = 0 →
        (ask_question env s q r).1.message =
          "Query executed successfully but returned no results") := by
  unfold ask_question
  rw [generate_sql_ok env s q t hok, hsql]
  simp only [ite_true]
  by_cases hrows : 0 < (execute_query (env.db s.nDB)).rows.length
  · simp [hcols, hrows]
    intro h
    rw [h] at hrows
    simp at hrows
  · simp [hcols, hrows]

/-- Closed instance of `ask_question_first_attempt_ok`: a one-row
result gives `success=true`, no retry, and the message `"Found 1
results"`. -/
theorem ask_question_first_attempt_ok_witness :
    (ask_question envHappy emptyState "q" 1).1.success = true
    ∧ (ask_question envHappy emptyState "q" 1).1.message = "Found 1 results"
    ∧ (ask_question envHappy emptyState "q" 1).1.retry_attempted = false :=
  have h := ask_question_first_attempt_ok envHappy emptyState "q" 1
    "SELECT 1" rfl (by decide) (by decide)
  ⟨h.1, h.2.2.2.1 (by decide), h.2.1⟩

/-- C6: `execute_query` never raises to its caller — the embedding is a
total function into `QueryResult` — and on any raised exception it
returns the zero-column, zero-row sentinel result that the workflow
uses as its sole failure signal. -/
theorem execute_query_failure_sentinel (e : String) :
    execute_query (DBBehavior.raised e) = ⟨[], []⟩ :=
  rfl

/-- C8: clearing the conversation state then reading the history yields
the empty sequence, for every prior content, and `clear` is idempotent. -/
theorem clear_history_spec (s : AgentState) :
    get_conversation_history (clear_history s) = []
    ∧ clear_history (clear_history s) = clear_history s :=
  ⟨rfl, rfl⟩

/-- C1, counterexample: with a failing first execution and a repair
response that is the prose "cannot determine date column" (not SQL),
the outcome has `success=false` and `retried=true` as the claim says,
but its message is the fixed failure string, not the repair response's
explanation text — `fix_failed_sql`'s response text is discarded by
`ask_question`. -/
theorem repair_explanation_message_counterexample :
    looksLikeSQL "cannot determine date column" = false
    ∧ (ask_question envRepairExplain emptyState "q" 1).1.success = false
    ∧ (ask_question envRepairExplain emptyState "q" 1).1.retry_attempted = true
    ∧ (ask_question envRepairExplain emptyState "q" 1).1.message
        ≠ "cannot determine date column" := by
  decide

/-- C1, amended: when the first execution fails (zero columns) and the
repair LLM call returns a response not classified as SQL, the workflow
terminates with `success=false`, `retried=true`, and the fixed message
"Query failed and could not be automatically fixed"; the repair
response's explanation text is discarded. -/
theorem ask_question_repair_non_sql (env : Env) (s : AgentState)
    (q : String) (r : Int) (t t2 : String)
    (hr : r > 0)
    (hok : env.llm s.nLLM = Except.ok t)
    (hsql : looksLikeSQL t = true)
    (hfail : (execute_query (env.db s.nDB)).cols = [])
    (hok2 : env.llm (s.nLLM + 1) = Except.ok t2)
    (hnot2 : looksLikeSQL t2 = false) :
    (ask_question env s q r).1 =
      { success := false, sql := some (stripMarkdown t), data := none,
        message := "Query failed and could not be automatically fixed",
        retry_attempted := true } := by
  unfold ask_question
  rw [generate_sql_ok env s q t hok, hsql]
  simp only [ite_true]
  unfold fix_failed_sql
  simp [hfail, hr, hok2, hnot2]

/-- Closed instance of `ask_question_repair_non_sql`. -/
theorem ask_question_repair_non_sql_witness :
    (ask_question envRepairExplain emptyState "q" 1).1 =
      { success := false,
        sql := some (stripMarkdown "SELECT 1"), data := none,
        message := "Query failed and could not be automatically fixed",
        retry_attempted := true } :=
  ask_question_repair_non_sql envRepairExplain emptyState "q" 1
    "SELECT 1" "cannot determine date column"
    (by decide) rfl (by decide) (by decide) rfl (by decide)

/-- C4, counterexample: a response with no "SELECT" is classified as a
plain explanatory answer and no SQL is executed, but the workflow does
not terminate *successfully*: the outcome has `success=false` (see also
the spec's own property list, which states `success=false` on this
path). -/
theorem plain_answer_success_counterexample :
    looksLikeSQL "I cannot answer that" = false
    ∧ (ask_question envExplain emptyState "q" 1).1.success = false
    ∧ (ask_question envExplain emptyState "q" 1).2.nDB = emptyState.nDB := by
  decide

/-- C4, amended: for every question whose LLM response does not contain
"SELECT" case-insensitively, the response is classified as a plain
explanatory answer (`generate_sql` yields no SQL), no SQL is executed,
and the workflow terminates normally but with `success=false` and the
response as the message. -/
theorem ask_question_plain_answer (env : Env) (s : AgentState)
    (q : String) (r : Int) (t : String)
    (hok : env.llm s.nLLM = Except.ok t)
    (hnot : looksLikeSQL t = false) :
    (generate_sql env s q).1.1 = none
    ∧ (ask_question env s q r).1.success = false
    ∧ (ask_question env s q r).1.sql = none
    ∧ (ask_question env s q r).1.message = t
    ∧ (ask_question env s q r).2.nDB = s.nDB := by
  unfold ask_question
  rw [generate_sql_ok env s q t hok, hnot]
  simp

/-- Closed instance of `ask_question_plain_answer`. -/
theorem ask_question_plain_answer_witness :
    (generate_sql envExplain emptyState "q").1.1 = none
    ∧ (ask_question envExplain emptyState "q" 1).1.success = false
    ∧ (ask_question envExplain emptyState "q" 1).1.sql = none
    ∧ (ask_question envExplain emptyState "q" 1).1.message
        = "I cannot answer that"
    ∧ (ask_question envExplain emptyState "q" 1).2.nDB = emptyState.nDB :=
  ask_question_plain_answer envExplain emptyState "q" 1
    "I cannot answer that" rfl (by decide)

/-- C7: the repair call is independent of the main conversation —
`fix_failed_sql` never modifies the history — and after a
failed-then-repaired question the history has gained exactly the user
question and the first raw LLM response, nothing else. -/
theorem repair_call_independent (env : Env) (s : AgentState)
    (q : String) (r : Int) (t : String)
    (hok : env.llm s.nLLM = Except.ok t)
    (hsql : looksLikeSQL t = true)
    (hfail : (execute_query (env.db s.nDB)).cols = []) :
    (∀ (s' : AgentState) (a b : String),
        (fix_failed_sql env s' a b).2.history = s'.history)
    ∧ (ask_question env s q r).2.history =
        s.history ++ [⟨"user", q⟩, ⟨"assistant", t⟩] := by
  refine ⟨fun s' a b => fix_failed_sql_history env s' a b, ?_⟩
  unfold ask_question
  rw [generate_sql_ok env s q t hok, hsql]
  simp only [ite_true]
  by_cases hr : r > 0
  · simp [hfail, hr]
    repeat' split
    all_goals simp [fix_failed_sql_history]
  · simp [hfail, hr]

/-- Closed instance of `repair_call_independent`: after a failed first
execution and a prose repair response, the history holds exactly the
question and the first response. -/
theorem repair_call_independent_witness :
    (ask_question envRepairExplain emptyState "q" 1).2.history =
      emptyState.history ++ [⟨"user", "q"⟩, ⟨"assistant", "SELECT 1"⟩] :=
  (repair_call_independent envRepairExplain emptyState "q" 1 "SELECT 1"
    rfl (by decide) (by decide)).2

/-- C9: when the first execution fails (zero columns) and the whole
repair cycle also fails — the repair call raises, returns non-SQL, or
returns SQL whose execution again has zero columns — the outcome keeps
the original first-attempt SQL (never the repaired SQL) and the fixed
message "Query failed and could not be automatically fixed", with
`success=false` and `retried=true`. -/
theorem ask_question_repair_cycle_fails (env : Env) (s : AgentState)
    (q : String) (r : Int) (t : String)
    (hr : r > 0)
    (hok : env.llm s.nLLM = Except.ok t)
    (hsql : looksLikeSQL t = true)
    (hfail : (execute_query (env.db s.nDB)).cols = [])
    (hrepair : ∀ t2, env.llm (s.nLLM + 1) = Except.ok t2 →
        looksLikeSQL t2 = true →
        (execute_query (env.db (s.nDB + 1))).cols = []) :
    (ask_question env s q r).1 =
      { success := false, sql := some (stripMarkdown t), data := none,
        message := "Query failed and could not be automatically fixed",
        retry_attempted := true } := by
  unfold ask_question
  rw [generate_sql_ok env s q t hok, hsql]
  simp only [ite_true]
  unfold fix_failed_sql
  rcases h2 : env.llm (s.nLLM + 1) with e | t2
  · simp [hfail, hr, h2]
  · by_cases hb : looksLikeSQL t2
    · have h3 := hrepair t2 h2 hb
      simp [hfail, hr, h2, hb, h3]
    · simp [hfail, hr, h2, hb]

/-- Closed instance of `ask_question_repair_cycle_fails`: the repaired
SQL fails again and the outcome keeps the original SQL and the fixed
message. -/
theorem ask_question_repair_cycle_fails_witness :
    (ask_question envRepairStillFails emptyState "q" 1).1 =
      { success := false,
        sql := some (stripMarkdown "SELECT 1"), data := none,
        message := "Query failed and could not be automatically fixed",
        retry_attempted := true } :=
  ask_question_repair_cycle_fails envRepairStillFails emptyState "q" 1
    "SELECT 1" (by decide) rfl (by decide) (by decide)
    (fun t2 h1 h2 => by decide)

/-- C10: when the drafting LLM call raises, the conversation history is
left exactly as before — nothing is appended — and `ask_question`
returns `success=false`, `sql=None`, `retry_attempted=false`, with no
SQL executed. -/
theorem ask_question_llm_raises (env : Env) (s : AgentState) (q : String)
    (r : Int) (e : String)
    (herr : env.llm s.nLLM = Except.error e) :
    (ask_question env s q r).1 =
      { success := false, sql := none, data := none,
        message := "Error generating SQL: " ++ e, retry_attempted := false }
    ∧ (ask_question env s q r).2.history = s.history
    ∧ (ask_question env s q r).2.nDB = s.nDB := by
  unfold ask_question
  rw [generate_sql_raised env s q e herr]
  simp

/-- Closed instance of `ask_question_llm_raises`. -/
theorem ask_question_llm_raises_witness :
    (ask_question envRaise emptyState "q" 1).1 =
      { success := false, sql := none, data := none,
        message := "Error generating SQL: " ++ "boom",
        retry_attempted := false }
    ∧ (ask_question envRaise emptyState "q" 1).2.history = emptyState.history
    ∧ (ask_question envRaise emptyState "q" 1).2.nDB = emptyState.nDB :=
  ask_question_llm_raises envRaise emptyState "q" 1 "boom" rfl

end Analytics
